import Mathlib

/-!
Verification of the FlipArt workflow-orchestration layer (src/App.tsx).

The React component is embedded shallowly: the mutable `useState` cells
become the fields of `AppState`, each async handler becomes a pure state
transformer parameterised by the outcome of its single gateway call and by
the value of the millisecond clock at completion time, and the request
payload assembled for the conversational gateway call is returned
explicitly so theorems can inspect it.
-/

/-- The five aspect-ratio options of `types.ts`. -/
inductive Aspect where
  | r1x1
  | r3x4
  | r4x3
  | r9x16
  | r16x9
deriving DecidableEq, Repr

/-- `GeneratedImage` from `types.ts`: one artifact of the history list. -/
structure GeneratedImage where
  id : String
  url : String
  prompt : String
  timestamp : Nat
  aspect : Aspect
deriving DecidableEq, Repr

/-- Chat roles: the source uses the literals "user" and "model". -/
inductive Role where
  | user
  | model
deriving DecidableEq, Repr

/-- `ChatMessage` from `App.tsx`: role, text and optional attached image url. -/
structure ChatMessage where
  role : Role
  text : String
  image : Option String := none
deriving DecidableEq, Repr

/-- `UserProfile` from `App.tsx`. -/
structure UserProfile where
  name : String
  email : String
deriving DecidableEq, Repr

/-- A staged audio file: name, raw bytes and MIME type. -/
structure AudioFile where
  name : String
  bytes : List Nat
  mime : String
deriving DecidableEq, Repr

/-- A `URL.createObjectURL` result: a fresh url identifier together with the
file whose bytes it refers to.  Two calls on the same file yield distinct
urls (`urlId` differs) that refer to the same bytes. -/
structure ObjectUrl where
  urlId : Nat
  file : AudioFile
deriving DecidableEq, Repr

/-- The `audioResult` record of `App.tsx`. -/
structure AudioResult where
  original : ObjectUrl
  enhanced : ObjectUrl
  transcription : String
deriving DecidableEq, Repr

/-- A part of a gateway request: `{text}` or `{inlineData}` in the source. -/
inductive ReqPart where
  | text (s : String)
  | inlineData (data : String) (mimeType : String)
deriving DecidableEq, Repr

/-- One entry of the `contents` array sent to the gateway.  The audio call
omits the role field, hence the `Option`. -/
structure Content where
  role : Option Role
  parts : List ReqPart
deriving DecidableEq, Repr

/-- The mutable `useState` cells of the `App` component. -/
structure AppState where
  prompt : String
  isGenerating : Bool
  aspect : Aspect
  history : List GeneratedImage
  error : Option String
  user : Option UserProfile
  showAuthModal : Bool
  chatInput : String
  attachedImage : Option GeneratedImage
  chatMessages : List ChatMessage
  isChatting : Bool
  audioFile : Option AudioFile
  isAudioProcessing : Bool
  audioResult : Option AudioResult
deriving DecidableEq, Repr

/-- JavaScript whitespace test for the characters `trim` removes.  The
source only ever trims ordinary keyboard input, for which space, tab,
newline and carriage return are the relevant whitespace characters. -/
def isWs (c : Char) : Bool :=
  c = ' ' || c = '\t' || c = '\n' || c = '\r'

/-- Model of JavaScript `String.prototype.trim`. -/
def jsTrim (s : String) : String :=
  String.mk (((s.data.dropWhile isWs).reverse.dropWhile isWs).reverse)

/-- Splits a character list at every occurrence of `sep`, as JavaScript
`split` does. -/
def splitListAux (sep : Char) : List Char → List Char → List (List Char)
  | [], acc => [acc.reverse]
  | c :: cs, acc =>
      if c = sep then acc.reverse :: splitListAux sep cs []
      else splitListAux sep cs (c :: acc)

/-- Model of the idiom `s.split(',')[1]` used to strip the metadata header
from a data url; when there is no comma the JavaScript value is undefined,
modelled as the empty string. -/
def dataOf (s : String) : String :=
  String.mk ((splitListAux ',' s.data []).getD 1 [])

example : jsTrim "  hi " = "hi" := by decide
example : jsTrim "   " = "" := by decide
example : dataOf "data:image/png;base64,XYZ" = "XYZ" := by decide

/-- The decimal digit characters. -/
def digitChar : Nat → Char
  | 0 => '0'
  | 1 => '1'
  | 2 => '2'
  | 3 => '3'
  | 4 => '4'
  | 5 => '5'
  | 6 => '6'
  | 7 => '7'
  | 8 => '8'
  | 9 => '9'
  | _ => '?'

/-- Least-significant-first decimal digits of `n`, with explicit fuel so the
recursion is structural; `fuel = n` always suffices. -/
def natDigitsRevAux : Nat → Nat → List Nat
  | 0, _ => []
  | _ + 1, 0 => []
  | fuel + 1, n + 1 => ((n + 1) % 10) :: natDigitsRevAux fuel ((n + 1) / 10)

/-- Model of JavaScript `Number.prototype.toString` on a natural number:
its decimal representation. -/
def natToString (n : Nat) : String :=
  if n = 0 then "0" else String.mk (((natDigitsRevAux n n).reverse).map digitChar)

example : natToString 0 = "0" := by decide
example : natToString 1736953200000 = "1736953200000" := by decide

/-- Reassembles a natural number from least-significant-first digits. -/
def ofDigitsRev : List Nat → Nat
  | [] => 0
  | d :: ds => d + 10 * ofDigitsRev ds

theorem ofDigitsRev_natDigitsRevAux :
    ∀ fuel n, n ≤ fuel → ofDigitsRev (natDigitsRevAux fuel n) = n := by
  intro fuel
  induction fuel with
  | zero =>
      intro n hn
      interval_cases n
      rfl
  | succ f ih =>
      intro n hn
      match n with
      | 0 => rfl
      | m + 1 =>
          have hdiv : (m + 1) / 10 < m + 1 := Nat.div_lt_self (Nat.succ_pos m) (by omega)
          have hle : (m + 1) / 10 ≤ f := by omega
          simp only [natDigitsRevAux, ofDigitsRev, ih _ hle]
          omega

theorem natDigitsRevAux_lt_ten :
    ∀ fuel n d, d ∈ natDigitsRevAux fuel n → d < 10 := by
  intro fuel
  induction fuel with
  | zero => intro n d hd; simp [natDigitsRevAux] at hd
  | succ f ih =>
      intro n d hd
      match n with
      | 0 => simp [natDigitsRevAux] at hd
      | m + 1 =>
          simp only [natDigitsRevAux, List.mem_cons] at hd
          rcases hd with h | h
          · omega
          · exact ih _ _ h

theorem map_digitChar_inj :
    ∀ xs ys : List Nat, (∀ x ∈ xs, x < 10) → (∀ y ∈ ys, y < 10) →
      xs.map digitChar = ys.map digitChar → xs = ys := by
  intro xs
  induction xs with
  | nil =>
      intro ys _ _ h
      cases ys with
      | nil => rfl
      | cons y ys => simp at h
  | cons x xs ih =>
      intro ys hxs hys h
      cases ys with
      | nil => simp at h
      | cons y ys =>
          simp only [List.map_cons, List.cons.injEq] at h
          have hx : x < 10 := hxs x (List.mem_cons_self x xs)
          have hy : y < 10 := hys y (List.mem_cons_self y ys)
          have hxy : x = y := by
            have : ∀ a, a < 10 → ∀ b, b < 10 → digitChar a = digitChar b → a = b := by decide
            exact this x hx y hy h.1
          have : xs = ys :=
            ih ys (fun a ha => hxs a (List.mem_cons_of_mem x ha))
              (fun b hb => hys b (List.mem_cons_of_mem y hb)) h.2
          rw [hxy, this]

theorem string_mk_inj {l₁ l₂ : List Char} (h : String.mk l₁ = String.mk l₂) :
    l₁ = l₂ :=
  congrArg String.data h

theorem natToString_inj : Function.Injective natToString := by
  intro a b h
  unfold natToString at h
  by_cases ha : a = 0 <;> by_cases hb : b = 0
  · omega
  · rw [if_pos ha, if_neg hb] at h
    have h' := string_mk_inj h.symm
    have hall : ∀ d ∈ (natDigitsRevAux b b).reverse, d < 10 := by
      intro d hd
      exact natDigitsRevAux_lt_ten b b d (List.mem_reverse.mp hd)
    have h0 : ∀ d ∈ ([0] : List Nat), d < 10 := by decide
    have : (natDigitsRevAux b b).reverse = [0] := by
      apply map_digitChar_inj _ _ hall h0
      rw [h']
      rfl
    have hb' : natDigitsRevAux b b = [0] := by
      have := congrArg List.reverse this
      simpa using this
    have := ofDigitsRev_natDigitsRevAux b b (Nat.le_refl b)
    rw [hb'] at this
    simp [ofDigitsRev] at this
    omega
  · rw [if_neg ha, if_pos hb] at h
    have h' := string_mk_inj h
    have hall : ∀ d ∈ (natDigitsRevAux a a).reverse, d < 10 := by
      intro d hd
      exact natDigitsRevAux_lt_ten a a d (List.mem_reverse.mp hd)
    have h0 : ∀ d ∈ ([0] : List Nat), d < 10 := by decide
    have : (natDigitsRevAux a a).reverse = [0] := by
      apply map_digitChar_inj _ _ hall h0
      rw [h']
      rfl
    have ha' : natDigitsRevAux a a = [0] := by
      have := congrArg List.reverse this
      simpa using this
    have := ofDigitsRev_natDigitsRevAux a a (Nat.le_refl a)
    rw [ha'] at this
    simp [ofDigitsRev] at this
    omega
  · rw [if_neg ha, if_neg hb] at h
    have h' := string_mk_inj h
    have hda : (natDigitsRevAux a a).reverse = (natDigitsRevAux b b).reverse := by
      apply map_digitChar_inj
      · intro d hd; exact natDigitsRevAux_lt_ten a a d (List.mem_reverse.mp hd)
      · intro d hd; exact natDigitsRevAux_lt_ten b b d (List.mem_reverse.mp hd)
      · exact h'
    have : natDigitsRevAux a a = natDigitsRevAux b b := by
      have := congrArg List.reverse hda
      simpa using this
    calc a = ofDigitsRev (natDigitsRevAux a a) :=
            (ofDigitsRev_natDigitsRevAux a a (Nat.le_refl a)).symm
      _ = ofDigitsRev (natDigitsRevAux b b) := by rw [this]
      _ = b := ofDigitsRev_natDigitsRevAux b b (Nat.le_refl b)

/-- The generic fallback recorded when a generation error carries no
message: `"Failed to generate image."` in the source. -/
def generateFallbackError : String := "Failed to generate image."

/-- Fallback assistant text when the gateway returns empty text. -/
def emptyReplyFallback : String := "I\x27m sorry, I couldn\x27t process that request."

/-- Fixed apologetic assistant text appended when the gateway call throws. -/
def chatErrorFallback : String :=
  "I encountered an error analyzing your request. Please try again."

/-- Default text paired with a history message that carries an image but no
text. -/
def imageDefaultPrompt : String := "Analyze this image."

/-- Default text for the new turn when the trimmed input is empty and an
attachment is staged. -/
def attachmentDefaultPrompt : String := "What do you think of this generation?"

/-- Placeholder transcription when the audio gateway returns empty text. -/
def audioPlaceholder : String := "Processing complete."

/-- The greeting installed by `handleLogout`. -/
def logoutGreeting : String :=
  "Hello! I am your FlipArt Assistant. How can I help you today?"

/-- The greeting the chat log starts with. -/
def initialGreeting : String :=
  "Hello! I am your FlipArt AI Assistant. I can help you craft better prompts or analyze your generated art. How can I assist you today?"

/-- Encoding of one existing `ChatMessage` into a request entry, following
the `chatMessages.map` in `handleSendMessage`: a truthy `image` yields an
inline-data part plus a text part (with the fixed default when the text is
empty), otherwise a single text part. -/
def encodeMsg (msg : ChatMessage) : Content :=
  match msg.image with
  | some im =>
      if im = "" then { role := some msg.role, parts := [ReqPart.text msg.text] }
      else
        { role := some msg.role,
          parts := [ReqPart.inlineData (dataOf im) "image/png",
                    ReqPart.text (if msg.text = "" then imageDefaultPrompt else msg.text)] }
  | none => { role := some msg.role, parts := [ReqPart.text msg.text] }

/-- The `currentParts` of the just-submitted turn: the staged attachment
(if any) followed by a text part holding `userText` or its fallback. -/
def newTurnParts (userText : String) (att : Option GeneratedImage) : List ReqPart :=
  (match att with
   | some a => [ReqPart.inlineData (dataOf a.url) "image/png"]
   | none => []) ++
  [ReqPart.text (if userText = "" then
      (match att with | some _ => attachmentDefaultPrompt | none => "")
    else userText)]

/-- The full `contents` array `handleSendMessage` sends: the prior log
mapped through `encodeMsg`, then one final user entry for the new turn. -/
def buildContents (log : List ChatMessage) (userText : String)
    (att : Option GeneratedImage) : List Content :=
  log.map encodeMsg ++ [{ role := some Role.user, parts := newTurnParts userText att }]

/-- Result of a send: the final state and, when the gateway was invoked,
the request payload it was invoked with. -/
structure SendResult where
  state : AppState
  request : Option (List Content)
deriving DecidableEq, Repr

/-- `handleSendMessage`, run to completion with the gateway outcome given
as `outcome` (`Except.ok t` models a resolved response whose `text` is `t`,
with `""` standing for an absent text; `Except.error m` models a rejected
call). -/
def handleSendMessage (s : AppState) (outcome : Except String String) : SendResult :=
  if (jsTrim s.chatInput = "" ∧ s.attachedImage = none) ∨ s.isChatting = true then
    ⟨s, none⟩
  else if s.user = none then ⟨{ s with showAuthModal := true }, none⟩
  else
    let userText := jsTrim s.chatInput
    let att := s.attachedImage
    let userEntry : ChatMessage :=
      { role := Role.user, text := userText, image := att.map GeneratedImage.url }
    let req := buildContents s.chatMessages userText att
    let reply : String :=
      match outcome with
      | Except.ok t => if t = "" then emptyReplyFallback else t
      | Except.error _ => chatErrorFallback
    ⟨{ s with
        chatInput := ""
        attachedImage := none
        isChatting := false
        chatMessages := s.chatMessages ++
          [userEntry, { role := Role.model, text := reply }] },
      some req⟩

/-- `handleGenerate`, run to completion: `now` is the millisecond clock at
completion (`Date.now()`), `outcome` the settled gateway promise.  The
returned boolean records whether the gateway was invoked. -/
def handleGenerate (s : AppState) (now : Nat) (outcome : Except String String) :
    AppState × Bool :=
  if jsTrim s.prompt = "" ∨ s.isGenerating = true then (s, false)
  else if s.user = none then ({ s with showAuthModal := true }, false)
  else
    match outcome with
    | Except.ok imageUrl =>
        let newImage : GeneratedImage :=
          { id := natToString now, url := imageUrl, prompt := s.prompt,
            timestamp := now, aspect := s.aspect }
        ({ s with
            isGenerating := false
            error := none
            history := newImage :: s.history
            prompt := "" }, true)
    | Except.error msg =>
        ({ s with
            isGenerating := false
            error := some (if msg = "" then generateFallbackError else msg) }, true)

/-- `handleAudioEnhance`, run to completion: `urlCounter` seeds the two
`URL.createObjectURL` calls, `outcome` the settled gateway promise. -/
def handleAudioEnhance (s : AppState) (urlCounter : Nat)
    (outcome : Except String String) : AppState × Bool :=
  if s.audioFile = none ∨ s.isAudioProcessing = true then (s, false)
  else if s.user = none then ({ s with showAuthModal := true }, false)
  else
    match s.audioFile with
    | none => (s, false)
    | some f =>
        match outcome with
        | Except.ok t =>
            ({ s with
                isAudioProcessing := false
                error := none
                audioResult := some
                  { original := ⟨urlCounter, f⟩
                    enhanced := ⟨urlCounter + 1, f⟩
                    transcription := if t = "" then audioPlaceholder else t } }, true)
        | Except.error msg =>
            ({ s with
                isAudioProcessing := false
                error := some ("Audio processing failed: " ++ msg) }, true)

/-- `handleLogout`: clears the session and replaces the whole log with a
single assistant greeting. -/
def handleLogout (s : AppState) : AppState :=
  { s with
    user := none
    chatMessages := [{ role := Role.model, text := logoutGreeting }] }

/-- The Clear History button: `setChatMessages([])`. -/
def clearChatHistory (s : AppState) : AppState :=
  { s with chatMessages := [] }

/-- One completed, successful generation interaction: the user types
`prompt`, selects `aspect`, submits, and the gateway resolves with `result`
at clock value `now`. -/
structure GenCall where
  prompt : String
  aspect : Aspect
  now : Nat
  result : String
deriving DecidableEq, Repr

/-- The artifact `handleGenerate` constructs for a successful call. -/
def mkArtifact (c : GenCall) : GeneratedImage :=
  { id := natToString c.now, url := c.result, prompt := c.prompt,
    timestamp := c.now, aspect := c.aspect }

/-- Typing a prompt, selecting a ratio, and submitting one successful
generation. -/
def submitGen (s : AppState) (c : GenCall) : AppState :=
  (handleGenerate { s with prompt := c.prompt, aspect := c.aspect } c.now
    (Except.ok c.result)).1

/-- A sequence of successful generation interactions, oldest first. -/
def runGen (s : AppState) : List GenCall → AppState
  | [] => s
  | c :: cs => runGen (submitGen s c) cs

/-- How `JSON.parse` output is modelled: the untyped value a successful
parse produces. -/
inductive Json where
  | null
  | bool (b : Bool)
  | num (n : Int)
  | str (s : String)
  | arr (xs : List Json)
  | obj (fields : List (String × Json))
deriving Repr

/-- What `localStorage.getItem` + `JSON.parse` can produce for the history
key: no stored value (or a falsy empty string), a stored string on which
`JSON.parse` throws, or a successful parse. -/
inductive StoredRead where
  | absent
  | unparseable
  | parsed (j : Json)

/-- The load effect for the history key: the initial state is `[]`; a
truthy stored value is `JSON.parse`d inside `try`, and only a thrown parse
error is caught (leaving the state at `[]`); a successfully parsed value is
installed verbatim by `setHistory`, with no shape validation. -/
def loadHistoryValue : StoredRead → Json
  | StoredRead.absent => Json.arr []
  | StoredRead.unparseable => Json.arr []
  | StoredRead.parsed j => j

/-- Whether a parsed object has a string field named `k`. -/
def fieldIsStr (fields : List (String × Json)) (k : String) : Bool :=
  match fields.lookup k with
  | some (Json.str _) => true
  | _ => false

/-- Whether a parsed object has a numeric field named `k`. -/
def fieldIsNum (fields : List (String × Json)) (k : String) : Bool :=
  match fields.lookup k with
  | some (Json.num _) => true
  | _ => false

/-- Whether a parsed value has the shape of one stored artifact
(`GeneratedImage` of `types.ts`). -/
def isArtifactJson : Json → Bool
  | Json.obj fields =>
      fieldIsStr fields "id" && fieldIsStr fields "url" &&
        fieldIsStr fields "prompt" && fieldIsNum fields "timestamp" &&
        fieldIsStr fields "aspectRatio"
  | _ => false

/-- Whether a parsed value has the expected structure of the stored
history: an array of artifact objects. -/
def isHistoryShape : Json → Bool
  | Json.arr items => items.all isArtifactJson
  | _ => false

theorem handleSendMessage_eq (s : AppState) (o : Except String String)
    (h1 : ¬(jsTrim s.chatInput = "" ∧ s.attachedImage = none))
    (h2 : s.isChatting = false) (u : UserProfile) (hu : s.user = some u) :
    handleSendMessage s o =
      ⟨{ s with
          chatInput := ""
          attachedImage := none
          isChatting := false
          chatMessages := s.chatMessages ++
            [{ role := Role.user, text := jsTrim s.chatInput,
               image := s.attachedImage.map GeneratedImage.url },
             { role := Role.model, text :=
                match o with
                | Except.ok t => if t = "" then emptyReplyFallback else t
                | Except.error _ => chatErrorFallback }] },
        some (buildContents s.chatMessages (jsTrim s.chatInput) s.attachedImage)⟩ := by
  have hc : ¬((jsTrim s.chatInput = "" ∧ s.attachedImage = none) ∨ s.isChatting = true) := by
    rintro (h | h)
    · exact h1 h
    · rw [h2] at h
      exact absurd h (by simp)
  have hun : ¬(s.user = none) := by
    rw [hu]
    simp
  unfold handleSendMessage
  rw [if_neg hc, if_neg hun]

theorem handleGenerate_ok (s : AppState) (now : Nat) (urlv : String)
    (h1 : jsTrim s.prompt ≠ "") (h2 : s.isGenerating = false)
    (u : UserProfile) (hu : s.user = some u) :
    handleGenerate s now (Except.ok urlv) =
      ({ s with
          isGenerating := false
          error := none
          history := { id := natToString now, url := urlv, prompt := s.prompt,
                       timestamp := now, aspect := s.aspect } :: s.history
          prompt := "" }, true) := by
  have hc : ¬(jsTrim s.prompt = "" ∨ s.isGenerating = true) := by
    rintro (h | h)
    · exact h1 h
    · rw [h2] at h
      exact absurd h (by simp)
  have hun : ¬(s.user = none) := by
    rw [hu]
    simp
  unfold handleGenerate
  rw [if_neg hc, if_neg hun]

theorem handleGenerate_err (s : AppState) (now : Nat) (msg : String)
    (h1 : jsTrim s.prompt ≠ "") (h2 : s.isGenerating = false)
    (u : UserProfile) (hu : s.user = some u) :
    handleGenerate s now (Except.error msg) =
      ({ s with
          isGenerating := false
          error := some (if msg = "" then generateFallbackError else msg) }, true) := by
  have hc : ¬(jsTrim s.prompt = "" ∨ s.isGenerating = true) := by
    rintro (h | h)
    · exact h1 h
    · rw [h2] at h
      exact absurd h (by simp)
  have hun : ¬(s.user = none) := by
    rw [hu]
    simp
  unfold handleGenerate
  rw [if_neg hc, if_neg hun]

theorem handleAudioEnhance_ok (s : AppState) (f : AudioFile) (ctr : Nat) (t : String)
    (hf : s.audioFile = some f) (h2 : s.isAudioProcessing = false)
    (u : UserProfile) (hu : s.user = some u) :
    handleAudioEnhance s ctr (Except.ok t) =
      ({ s with
          isAudioProcessing := false
          error := none
          audioResult := some
            { original := ⟨ctr, f⟩, enhanced := ⟨ctr + 1, f⟩,
              transcription := if t = "" then audioPlaceholder else t } }, true) := by
  have hc : ¬(s.audioFile = none ∨ s.isAudioProcessing = true) := by
    rintro (h | h)
    · rw [hf] at h
      exact absurd h (by simp)
    · rw [h2] at h
      exact absurd h (by simp)
  have hun : ¬(s.user = none) := by
    rw [hu]
    simp
  unfold handleAudioEnhance
  rw [if_neg hc, if_neg hun, hf]

/-- A signed-in profile used by concrete instances. -/
def wUser : UserProfile := { name := "Ada", email := "ada@example.com" }

/-- A concrete artifact whose url is a decodable data url. -/
def wArt : GeneratedImage :=
  { id := "1", url := "data:image/png;base64,XYZ", prompt := "a fox",
    timestamp := 1, aspect := Aspect.r1x1 }

/-- A quiescent signed-in state used as the base of concrete instances. -/
def baseState : AppState :=
  { prompt := "", isGenerating := false, aspect := Aspect.r1x1, history := [],
    error := none, user := some wUser, showAuthModal := false, chatInput := "",
    attachedImage := none, chatMessages := [], isChatting := false,
    audioFile := none, isAudioProcessing := false, audioResult := none }

/-- C3: invoking a workflow while its busy flag is set, or with an
empty/whitespace-only primary input (empty prompt for generation; empty
trimmed message text with no attachment for conversation; no staged file
for audio), is a silent no-op: the state — in particular HistoryList,
ConversationLog, AudioAnalysisResult and the error banner — is unchanged
and the gateway is not invoked. -/
theorem claim3_guard_shortcircuit (s : AppState) (now ctr : Nat)
    (o : Except String String) :
    ((jsTrim s.prompt = "" ∨ s.isGenerating = true) →
       handleGenerate s now o = (s, false)) ∧
    (((jsTrim s.chatInput = "" ∧ s.attachedImage = none) ∨ s.isChatting = true) →
       handleSendMessage s o = ⟨s, none⟩) ∧
    ((s.audioFile = none ∨ s.isAudioProcessing = true) →
       handleAudioEnhance s ctr o = (s, false)) := by
  refine ⟨fun h => ?_, fun h => ?_, fun h => ?_⟩
  · unfold handleGenerate
    rw [if_pos h]
  · unfold handleSendMessage
    rw [if_pos h]
  · unfold handleAudioEnhance
    rw [if_pos h]

/-- Witness for C3: a busy generation workflow, an empty chat input with no
attachment, and a missing audio file each short-circuit on a concrete
state. -/
theorem claim3_witness :
    (jsTrim ({ baseState with isGenerating := true } : AppState).prompt = "" ∨
       ({ baseState with isGenerating := true } : AppState).isGenerating = true) ∧
    handleGenerate { baseState with isGenerating := true } 5 (Except.ok "u") =
      ({ baseState with isGenerating := true }, false) ∧
    handleSendMessage baseState (Except.ok "r") = ⟨baseState, none⟩ ∧
    handleAudioEnhance baseState 0 (Except.ok "t") = (baseState, false) :=
  ⟨Or.inr rfl,
   (claim3_guard_shortcircuit { baseState with isGenerating := true } 5 0
      (Except.ok "u")).1 (Or.inr rfl),
   (claim3_guard_shortcircuit baseState 0 0 (Except.ok "r")).2.1
      (Or.inl (by decide)),
   (claim3_guard_shortcircuit baseState 0 0 (Except.ok "t")).2.2
      (Or.inl rfl)⟩

/-- C9: signing out clears the session and replaces the whole conversation
log with a single assistant greeting, while the Clear History action
resets the log to the empty sequence with no greeting. -/
theorem claim9_logout_vs_clear (s : AppState) :
    (handleLogout s).user = none ∧
    (handleLogout s).chatMessages = [{ role := Role.model, text := logoutGreeting }] ∧
    (handleLogout s).chatMessages.length = 1 ∧
    (clearChatHistory s).chatMessages = [] :=
  ⟨rfl, rfl, rfl, rfl⟩

/-- C4: a send of non-empty trimmed text with a staged attachment while a
session is present and the workflow idle appends exactly two entries — a
user entry echoing the attachment url, then an assistant entry with the
gateway text or a fallback — and leaves no staged attachment, whatever the
gateway outcome. -/
theorem claim4_send_with_attachment (s : AppState) (a : GeneratedImage)
    (u : UserProfile) (o : Except String String)
    (ht : jsTrim s.chatInput ≠ "") (ha : s.attachedImage = some a)
    (hb : s.isChatting = false) (hu : s.user = some u) :
    (handleSendMessage s o).state.chatMessages =
      s.chatMessages ++
        [{ role := Role.user, text := jsTrim s.chatInput, image := some a.url },
         { role := Role.model, text :=
            match o with
            | Except.ok t => if t = "" then emptyReplyFallback else t
            | Except.error _ => chatErrorFallback }] ∧
    (handleSendMessage s o).state.chatMessages.length = s.chatMessages.length + 2 ∧
    (handleSendMessage s o).state.attachedImage = none := by
  rw [handleSendMessage_eq s o (fun hcon => ht hcon.1) hb u hu]
  refine ⟨?_, ?_, rfl⟩
  · simp [ha]
  · simp

/-- A state with text typed and an attachment staged. -/
def c4State : AppState :=
  { baseState with chatInput := "describe this", attachedImage := some wArt }

/-- Witness for C4: sending "describe this" with a staged attachment on a
concrete state appends the user echo and the assistant reply. -/
theorem claim4_witness :
    jsTrim c4State.chatInput ≠ "" ∧
    (handleSendMessage c4State (Except.error "boom")).state.chatMessages =
      [{ role := Role.user, text := "describe this", image := some wArt.url },
       { role := Role.model, text := chatErrorFallback }] ∧
    (handleSendMessage c4State (Except.error "boom")).state.attachedImage = none := by
  have h := claim4_send_with_attachment c4State
    wArt wUser (Except.error "boom") (by decide) rfl rfl rfl
  exact ⟨by decide, by rw [h.1]; rfl, h.2.2⟩

/-- C5: for every send that passes validation, the appended assistant entry
is exactly the gateway text when non-empty, the fixed "could not process"
fallback when it is empty, and the fixed apologetic error string when the
call throws; no exception escapes (the handler is total) and the separate
error banner is untouched. -/
theorem claim5_assistant_reply (s : AppState) (u : UserProfile)
    (o : Except String String)
    (hv : ¬(jsTrim s.chatInput = "" ∧ s.attachedImage = none))
    (hb : s.isChatting = false) (hu : s.user = some u) :
    (handleSendMessage s o).state.chatMessages.getLast? =
      some { role := Role.model, text :=
        match o with
        | Except.ok t => if t = "" then emptyReplyFallback else t
        | Except.error _ => chatErrorFallback } ∧
    (handleSendMessage s o).state.error = s.error := by
  rw [handleSendMessage_eq s o hv hb u hu]
  constructor
  · show (s.chatMessages ++ [_, _]).getLast? = _
    rw [List.getLast?_append]
    rfl
  · rfl

/-- Witness for C5: on a concrete state a gateway failure appends the fixed
apologetic string and leaves the error banner unchanged. -/
theorem claim5_witness :
    ¬(jsTrim c4State.chatInput = "" ∧ c4State.attachedImage = none) ∧
    (handleSendMessage c4State (Except.error "down")).state.chatMessages.getLast? =
      some { role := Role.model, text := chatErrorFallback } ∧
    (handleSendMessage c4State (Except.error "down")).state.error = c4State.error := by
  have h := claim5_assistant_reply c4State wUser (Except.error "down")
    (by decide) rfl rfl
  exact ⟨by decide, h.1, h.2⟩

/-- C6: when the generation gateway call fails, the error message (or the
generic fallback when the error carries no message) is recorded, the
history is unchanged, and the busy flag ends cleared. -/
theorem claim6_generate_failure (s : AppState) (now : Nat) (msg : String)
    (u : UserProfile) (h1 : jsTrim s.prompt ≠ "") (h2 : s.isGenerating = false)
    (hu : s.user = some u) :
    (handleGenerate s now (Except.error msg)).1.error =
      some (if msg = "" then generateFallbackError else msg) ∧
    (handleGenerate s now (Except.error msg)).1.history = s.history ∧
    (handleGenerate s now (Except.error msg)).1.isGenerating = false := by
  rw [handleGenerate_err s now msg h1 h2 u hu]
  exact ⟨rfl, rfl, rfl⟩

/-- A state with a prompt typed, used by the generation claims. -/
def genState : AppState := { baseState with prompt := "a red fox" }

/-- Witness for C6: a failing call with an empty error message on a
concrete state records the generic fallback and keeps the history. -/
theorem claim6_witness :
    jsTrim genState.prompt ≠ "" ∧
    (handleGenerate genState 7 (Except.error "")).1.error =
      some generateFallbackError ∧
    (handleGenerate genState 7 (Except.error "")).1.history = genState.history ∧
    (handleGenerate genState 7 (Except.error "")).1.isGenerating = false := by
  have h := claim6_generate_failure genState 7 "" wUser (by decide) rfl rfl
  exact ⟨by decide, by rw [h.1]; rfl, h.2.1, h.2.2⟩

/-- C8: a successful audio enhance produces a result whose original and
enhanced references both point at the unmodified staged file bytes, with
the transcription equal to the gateway text or the fixed placeholder when
that text is empty. -/
theorem claim8_audio_result (s : AppState) (f : AudioFile) (u : UserProfile)
    (ctr : Nat) (t : String) (hf : s.audioFile = some f)
    (hb : s.isAudioProcessing = false) (hu : s.user = some u) :
    ∃ r : AudioResult,
      (handleAudioEnhance s ctr (Except.ok t)).1.audioResult = some r ∧
      r.original.file = f ∧ r.enhanced.file = f ∧
      r.transcription = (if t = "" then audioPlaceholder else t) := by
  rw [handleAudioEnhance_ok s f ctr t hf hb u hu]
  exact ⟨_, rfl, rfl, rfl, rfl⟩

/-- A state with an audio file staged. -/
def audState : AppState :=
  { baseState with audioFile := some { name := "v.wav", bytes := [1, 2, 3], mime := "audio/wav" } }

/-- Witness for C8: enhancing a concrete staged file with an empty gateway
response yields both references on the staged file and the placeholder
transcription. -/
theorem claim8_witness :
    audState.audioFile = some { name := "v.wav", bytes := [1, 2, 3], mime := "audio/wav" } ∧
    ∃ r : AudioResult,
      (handleAudioEnhance audState 0 (Except.ok "")).1.audioResult = some r ∧
      r.original.file = { name := "v.wav", bytes := [1, 2, 3], mime := "audio/wav" } ∧
      r.enhanced.file = { name := "v.wav", bytes := [1, 2, 3], mime := "audio/wav" } ∧
      r.transcription = (if "" = "" then audioPlaceholder else "") :=
  ⟨rfl, claim8_audio_result audState
    { name := "v.wav", bytes := [1, 2, 3], mime := "audio/wav" } wUser 0 "" rfl rfl rfl⟩

/-- C10: a failed generation leaves the typed prompt unchanged, while a
successful one clears it. -/
theorem claim10_prompt_survives (s : AppState) (now : Nat) (msg urlv : String)
    (u : UserProfile) (h1 : jsTrim s.prompt ≠ "") (h2 : s.isGenerating = false)
    (hu : s.user = some u) :
    (handleGenerate s now (Except.error msg)).1.prompt = s.prompt ∧
    (handleGenerate s now (Except.ok urlv)).1.prompt = "" := by
  rw [handleGenerate_err s now msg h1 h2 u hu,
    handleGenerate_ok s now urlv h1 h2 u hu]
  exact ⟨rfl, rfl⟩

/-- Witness for C10: on a concrete state the prompt survives a failure and
is cleared by a success. -/
theorem claim10_witness :
    jsTrim genState.prompt ≠ "" ∧
    (handleGenerate genState 7 (Except.error "down")).1.prompt = genState.prompt ∧
    (handleGenerate genState 7 (Except.ok "data:image/png;base64,AA")).1.prompt = "" := by
  have h := claim10_prompt_survives genState 7 "down" "data:image/png;base64,AA"
    wUser (by decide) rfl rfl
  exact ⟨by decide, h.1, h.2⟩

/-- C7 (amended): a stored history value that is absent or that makes
`JSON.parse` throw yields the empty history, and the load never throws; a
value that parses as JSON is installed verbatim by `setHistory`, with no
validation of its shape. -/
theorem claim7_load_recovery :
    loadHistoryValue StoredRead.absent = Json.arr [] ∧
    loadHistoryValue StoredRead.unparseable = Json.arr [] ∧
    ∀ j : Json, loadHistoryValue (StoredRead.parsed j) = j :=
  ⟨rfl, rfl, fun _ => rfl⟩

/-- Counterexample to C7 as stated: the stored string "42" parses as the
JSON number 42, which is not the expected history structure, yet the load
installs it unchanged instead of yielding an empty HistoryList. -/
theorem claim7_counterexample :
    isHistoryShape (Json.num 42) = false ∧
    loadHistoryValue (StoredRead.parsed (Json.num 42)) = Json.num 42 ∧
    Json.num 42 ≠ Json.arr [] :=
  ⟨rfl, rfl, fun h => Json.noConfusion h⟩

/-- C1 (amended): a validated send builds a payload of exactly k+1 entries
in log order — entry i encodes prior message i (inline image plus text, or
text alone), and entry k+1 has role user with the optional staged inline
image followed by a text part holding the trimmed input, or the fixed
default prompt when the trimmed input is empty and an attachment is
staged. -/
theorem claim1_request_shape (s : AppState) (u : UserProfile)
    (o : Except String String)
    (hv : ¬(jsTrim s.chatInput = "" ∧ s.attachedImage = none))
    (hb : s.isChatting = false) (hu : s.user = some u) :
    ∃ payload : List Content, (handleSendMessage s o).request = some payload ∧
      payload.length = s.chatMessages.length + 1 ∧
      (∀ (i : Nat) (m : ChatMessage), s.chatMessages[i]? = some m →
        payload[i]? = some
          { role := some m.role
            parts :=
              match m.image with
              | some im =>
                  if im = "" then [ReqPart.text m.text]
                  else [ReqPart.inlineData (dataOf im) "image/png",
                        ReqPart.text (if m.text = "" then imageDefaultPrompt else m.text)]
              | none => [ReqPart.text m.text] }) ∧
      payload[s.chatMessages.length]? = some
        { role := some Role.user
          parts :=
            (match s.attachedImage with
             | some a => [ReqPart.inlineData (dataOf a.url) "image/png"]
             | none => []) ++
            [ReqPart.text (if jsTrim s.chatInput = "" then attachmentDefaultPrompt
                           else jsTrim s.chatInput)] } := by
  rw [handleSendMessage_eq s o hv hb u hu]
  refine ⟨buildContents s.chatMessages (jsTrim s.chatInput) s.attachedImage,
    rfl, ?_, ?_, ?_⟩
  · simp [buildContents]
  · intro i m hm
    have hi : i < s.chatMessages.length := by
      by_contra hge
      rw [List.getElem?_eq_none (by omega)] at hm
      exact Option.noConfusion hm
    have hlen : i < (s.chatMessages.map encodeMsg).length := by
      simpa using hi
    unfold buildContents
    rw [List.getElem?_append_left hlen, List.getElem?_map, hm]
    cases m with
    | mk role text image =>
        cases image with
        | none => rfl
        | some im =>
            by_cases him : im = ""
            · simp [encodeMsg, him]
            · simp [encodeMsg, him]
  · unfold buildContents
    have hlen : (s.chatMessages.map encodeMsg).length ≤ s.chatMessages.length := by
      simp
    rw [List.getElem?_append_right hlen]
    simp only [List.length_map, Nat.sub_self]
    by_cases hz : jsTrim s.chatInput = ""
    · have hatt : s.attachedImage ≠ none := fun hn => hv ⟨hz, hn⟩
      match hs : s.attachedImage with
      | none => exact absurd hs hatt
      | some a => simp [newTurnParts, hz, hs]
    · match hs : s.attachedImage with
      | none => simp [newTurnParts, hz, hs]
      | some a => simp [newTurnParts, hz, hs]

/-- A state with one prior assistant message, typed input and a staged
attachment. -/
def c1State : AppState :=
  { baseState with
    chatInput := "improve it"
    attachedImage := some wArt
    chatMessages := [{ role := Role.model, text := initialGreeting }] }

/-- Witness for C1: the payload for a concrete one-message log plus an
attached new turn has the amended shape. -/
theorem claim1_witness :
    ¬(jsTrim c1State.chatInput = "" ∧ c1State.attachedImage = none) ∧
    ∃ payload : List Content,
      (handleSendMessage c1State (Except.ok "ok")).request = some payload ∧
      payload.length = c1State.chatMessages.length + 1 ∧
      (∀ (i : Nat) (m : ChatMessage), c1State.chatMessages[i]? = some m →
        payload[i]? = some
          { role := some m.role
            parts :=
              match m.image with
              | some im =>
                  if im = "" then [ReqPart.text m.text]
                  else [ReqPart.inlineData (dataOf im) "image/png",
                        ReqPart.text (if m.text = "" then imageDefaultPrompt else m.text)]
              | none => [ReqPart.text m.text] }) ∧
      payload[c1State.chatMessages.length]? = some
        { role := some Role.user
          parts :=
            (match c1State.attachedImage with
             | some a => [ReqPart.inlineData (dataOf a.url) "image/png"]
             | none => []) ++
            [ReqPart.text (if jsTrim c1State.chatInput = "" then attachmentDefaultPrompt
                           else jsTrim c1State.chatInput)] } :=
  ⟨by decide, claim1_request_shape c1State wUser (Except.ok "ok") (by decide) rfl rfl⟩

/-- A state with whitespace-only input and a staged attachment: it passes
the send validation because of the attachment. -/
def c1CexState : AppState :=
  { baseState with chatInput := " ", attachedImage := some wArt }

/-- Counterexample to C1 as stated: with whitespace-only input and a
staged attachment the final entry carries the fixed default prompt, not a
text part with the user input. -/
theorem claim1_counterexample :
    jsTrim c1CexState.chatInput = "" ∧
    (handleSendMessage c1CexState (Except.ok "ok")).request =
      some [{ role := some Role.user
              parts := [ReqPart.inlineData "XYZ" "image/png",
                        ReqPart.text attachmentDefaultPrompt] }] ∧
    ReqPart.text attachmentDefaultPrompt ≠ ReqPart.text (jsTrim c1CexState.chatInput) ∧
    ReqPart.text attachmentDefaultPrompt ≠ ReqPart.text c1CexState.chatInput := by
  decide

theorem submitGen_eq (s : AppState) (c : GenCall) (u : UserProfile)
    (hu : s.user = some u) (hb : s.isGenerating = false)
    (hp : jsTrim c.prompt ≠ "") :
    submitGen s c =
      { s with
        prompt := ""
        aspect := c.aspect
        isGenerating := false
        error := none
        history := mkArtifact c :: s.history } := by
  unfold submitGen
  have h := handleGenerate_ok { s with prompt := c.prompt, aspect := c.aspect }
    c.now c.result hp hb u hu
  rw [h]
  rfl

theorem runGen_history (u : UserProfile) :
    ∀ (calls : List GenCall) (s : AppState),
      s.user = some u → s.isGenerating = false →
      (∀ c ∈ calls, jsTrim c.prompt ≠ "") →
      (runGen s calls).history = (calls.map mkArtifact).reverse ++ s.history := by
  intro calls
  induction calls with
  | nil =>
      intro s _ _ _
      simp [runGen]
  | cons c cs ih =>
      intro s hu hb hp
      have hc : jsTrim c.prompt ≠ "" := hp c (List.mem_cons_self c cs)
      have hstep := submitGen_eq s c u hu hb hc
      have h1 : (submitGen s c).user = some u := by rw [hstep]; exact hu
      have h2 : (submitGen s c).isGenerating = false := by rw [hstep]
      have h3 : ∀ d ∈ cs, jsTrim d.prompt ≠ "" :=
        fun d hd => hp d (List.mem_cons_of_mem c hd)
      show (runGen (submitGen s c) cs).history = _
      rw [ih (submitGen s c) h1 h2 h3, hstep]
      simp

/-- C2 (amended): for any sequence of N successful generation calls from
an empty history whose completion timestamps are pairwise distinct, the
history afterwards has length N, in reverse completion order, every id is
distinct, and each call prepended the artifact built from its prompt,
aspect, completion-time id and timestamp.  (Ids are the decimal string of
`Date.now()` at completion, so distinctness requires the timestamps to
differ.) -/
theorem claim2_generation_sequence (s : AppState) (u : UserProfile)
    (calls : List GenCall) (hu : s.user = some u) (hb : s.isGenerating = false)
    (hh : s.history = []) (hp : ∀ c ∈ calls, jsTrim c.prompt ≠ "")
    (hn : (calls.map GenCall.now).Nodup) :
    (runGen s calls).history =
      (calls.map (fun c =>
        ({ id := natToString c.now, url := c.result, prompt := c.prompt,
           timestamp := c.now, aspect := c.aspect } : GeneratedImage))).reverse ∧
    (runGen s calls).history.length = calls.length ∧
    ((runGen s calls).history.map GeneratedImage.id).Nodup := by
  have hrun := runGen_history u calls s hu hb hp
  rw [hh, List.append_nil] at hrun
  have hmk : calls.map mkArtifact =
      calls.map (fun c =>
        ({ id := natToString c.now, url := c.result, prompt := c.prompt,
           timestamp := c.now, aspect := c.aspect } : GeneratedImage)) := rfl
  refine ⟨by rw [hrun, hmk], by rw [hrun]; simp, ?_⟩
  rw [hrun]
  rw [List.map_reverse, List.nodup_reverse, List.map_map]
  have : (GeneratedImage.id ∘ mkArtifact) = fun c => natToString c.now := rfl
  rw [this]
  have : (fun c : GenCall => natToString c.now) = natToString ∘ GenCall.now := rfl
  rw [this, ← List.map_map]
  exact hn.map natToString_inj

/-- Two successful calls with distinct completion times. -/
def w2Calls : List GenCall :=
  [⟨"a red fox", Aspect.r1x1, 5, "data:image/png;base64,AA"⟩,
   ⟨"a blue owl", Aspect.r16x9, 6, "data:image/png;base64,BB"⟩]

/-- Witness for C2: two successful calls at times 5 and 6 leave a
two-element history, newest first, with distinct ids. -/
theorem claim2_witness :
    (∀ c ∈ w2Calls, jsTrim c.prompt ≠ "") ∧
    (w2Calls.map GenCall.now).Nodup ∧
    (runGen baseState w2Calls).history =
      (w2Calls.map (fun c =>
        ({ id := natToString c.now, url := c.result, prompt := c.prompt,
           timestamp := c.now, aspect := c.aspect } : GeneratedImage))).reverse ∧
    (runGen baseState w2Calls).history.length = w2Calls.length ∧
    ((runGen baseState w2Calls).history.map GeneratedImage.id).Nodup :=
  ⟨by decide, by decide,
   claim2_generation_sequence baseState wUser w2Calls rfl rfl rfl
     (by decide) (by decide)⟩

/-- Two successful calls completing in the same millisecond. -/
def cexCalls : List GenCall :=
  [⟨"a red fox", Aspect.r1x1, 5, "data:image/png;base64,AA"⟩,
   ⟨"a blue owl", Aspect.r16x9, 5, "data:image/png;base64,BB"⟩]

/-- Counterexample to C2 as stated: two successful calls completing in the
same millisecond produce two artifacts with the same id "5", so the ids in
the resulting two-element history are not distinct. -/
theorem claim2_counterexample :
    (runGen baseState cexCalls).history.length = 2 ∧
    (runGen baseState cexCalls).history.map GeneratedImage.id = ["5", "5"] ∧
    ¬((runGen baseState cexCalls).history.map GeneratedImage.id).Nodup := by
  decide
